import Mathlib

/-!
Verification of the native runtime support layer
(src/runtime/runtime64_specific.cpp) against its specification.

The C++ source is shallowly embedded: thread-local cells become
thread-indexed maps or explicit state records, byte streams become
`List Nat` (each element a byte value), machine integers become `Nat`
or `Int` with explicit reduction modulo 2^32 where the C types are
32-bit, and native exception throws become the error side of `Except`.
The target ABI is x86-64 Linux (the file is `runtime64_specific`), on
which plain `char` is signed; the embedding of `SKIP_read_line_get`
reflects that.
-/

deriving instance DecidableEq for Except

namespace Runtime64

/-! ## Exception Relay

Source:
  thread_local void* exn;
  void* SKIP_getExn() \x7b return exn; \x7d
  void SKIP_saveExn(void* e) \x7b exn = e; \x7d

The thread_local cell is embedded as a map from thread ids to the
cell's content; `none` stands for the uninitialized cell of a thread
that never saved. `V` is the type of opaque exception references. -/

structure ExnState (V : Type) where
  exn : Nat → Option V

/-- The cell of thread `t` is overwritten with `v`; other threads' cells
are untouched. -/
def SKIP_saveExn {V : Type} (t : Nat) (v : V) (s : ExnState V) : ExnState V :=
  ⟨fun u => if u = t then some v else s.exn u⟩

/-- Returns thread `t`'s cell and leaves the state exactly as it was. -/
def SKIP_getExn {V : Type} (t : Nat) (s : ExnState V) : Option V × ExnState V :=
  (s.exn t, s)

/-- A step of compiled code interacting with the relay: either a save on
some thread or a get on some thread. -/
inductive ExnOp (V : Type) where
  | save (t : Nat) (v : V)
  | get (t : Nat)
deriving DecidableEq

def ExnOp.apply {V : Type} : ExnOp V → ExnState V → ExnState V
  | .save t v, s => SKIP_saveExn t v s
  | .get t, s => (SKIP_getExn t s).2

def runExnOps {V : Type} (ops : List (ExnOp V)) (s : ExnState V) : ExnState V :=
  ops.foldl (fun s op => op.apply s) s

/-! ## Line Input Buffer

Source:
  thread_local std::string lineBuffer;
  uint32_t SKIP_read_line_fill(void) \x7b
    std::getline(std::cin, lineBuffer);
    if (std::cin.fail()) \x7b SKIP_throw_EndOfFile(); \x7d
    return lineBuffer.size();
  \x7d
  uint32_t SKIP_read_line_get(uint32_t i) \x7b return lineBuffer[i]; \x7d

`std::getline(is, str)` erases `str`, then extracts characters up to
and including the first newline (the newline is consumed but not
stored); reaching end of input before a newline stops extraction
without failure; it sets failbit exactly when no character at all was
extracted, i.e. exactly when the input was already exhausted. -/

/-- Embedding of `std::getline(cin, lineBuffer)` on the remaining bytes
of standard input. Result: (line stored in the buffer, remaining input,
failbit). -/
def getlineStd (input : List Nat) : List Nat × List Nat × Bool :=
  match input with
  | [] => ([], [], true)
  | _ :: _ =>
    let line := input.takeWhile (fun b => b ≠ 10)
    let rest := (input.dropWhile (fun b => b ≠ 10)).drop 1
    (line, rest, false)

/-- The thread's view of standard input: the bytes not yet consumed and
the thread-local `lineBuffer`. -/
structure StdinState where
  input : List Nat
  lineBuffer : List Nat
deriving DecidableEq

/-- The end-of-stream signal value. Modelled from the spec:
`SKIP_throw_EndOfFile` is supplied by the compiled layer (declared
extern in the source); per §4.4 and §6 it raises an end-of-stream
exception through the Exception Relay and never returns, so the call is
embedded as the error side of `Except`. -/
inductive EndOfFileSignal where
  | endOfFile
deriving DecidableEq

/-- Embedding of `SKIP_read_line_fill`: run getline into the (erased
and refilled) lineBuffer; if the stream failed, raise end-of-stream;
otherwise return the buffer's size truncated to uint32_t. -/
def SKIP_read_line_fill (s : StdinState) : Except EndOfFileSignal (Nat × StdinState) :=
  let r := getlineStd s.input
  let s2 : StdinState := ⟨r.2.1, r.1⟩
  if r.2.2 then Except.error EndOfFileSignal.endOfFile
  else Except.ok (s2.lineBuffer.length % 2 ^ 32, s2)

/-- Embedding of `SKIP_read_line_get`: `lineBuffer[i]` has type `char`,
which is signed on the target ABI, and the return type is `uint32_t`;
a byte b ≥ 128 is read as the negative char value b - 256 and then
converted to uint32_t by reduction modulo 2^32. -/
def SKIP_read_line_get (s : StdinState) (i : Nat) : Nat :=
  let b := s.lineBuffer.getD i 0
  let c : Int := if b < 128 then (b : Int) else (b : Int) - 256
  (c % (2 ^ 32 : Int)).toNat

/-! ## String marshalling and runtime strings

Source (declarations; both functions are supplied by the compiled layer):
  uint32_t SKIP_String_byteSize(char*);
  char* sk_string_create(const char* buffer, uint32_t size);

A runtime string is embedded as its byte content. -/

structure RtString where
  bytes : List Nat
deriving DecidableEq

/-- Modelled from the spec: `SKIP_String_byteSize` is the compiled
layer's string-length query (§4.5, §6); it returns the string's byte
length, as a uint32_t. -/
def SKIP_String_byteSize (s : RtString) : Nat :=
  s.bytes.length % 2 ^ 32

/-- Modelled from the spec: `sk_string_create` is the compiled layer's
string-construction operation (§4.5 fromHostBuffer); it produces a new
runtime string copying buffer[0..size). -/
def sk_string_create (buffer : List Nat) (size : Nat) : RtString :=
  ⟨buffer.take size⟩

/-- Embedding of C `strlen` on a host byte buffer: the number of bytes
preceding the first zero byte. -/
def strlen (s : List Nat) : Nat :=
  (s.takeWhile (fun b => b ≠ 0)).length

/-! ## Argument Accessor and Process Bootstrap

Source:
  static int argc = 0;
  static char** argv = NULL;
  uint32_t SKIP_getArgc() \x7b return argc-1; \x7d
  char* SKIP_getArgN(uint32_t n) \x7b
    n = n + 1;
    return sk_string_create(argv[n], strlen(argv[n]));
  \x7d
  int main(int pargc, char** pargv) \x7b
    argc = pargc; argv = pargv;
    SKIP_initializeSkip();
    skip_main();
  \x7d

The file-local statics argc/argv are embedded as the captured vector
of host C strings (each a zero-free byte list as delivered by the OS,
embedded as `List Nat`). -/

structure ArgState where
  argv : List (List Nat)
deriving DecidableEq

/-- Embedding of `SKIP_getArgc`: `argc - 1` is computed in int and
converted to the uint32_t return type, i.e. reduced modulo 2^32. -/
def SKIP_getArgc (st : ArgState) : Nat :=
  (((st.argv.length : Int) - 1) % (2 ^ 32 : Int)).toNat

/-- Embedding of `SKIP_getArgN`: reads argv[n+1] and marshals it via
`sk_string_create` with its strlen. -/
def SKIP_getArgN (st : ArgState) (n : Nat) : RtString :=
  sk_string_create (st.argv.getD (n + 1) []) (strlen (st.argv.getD (n + 1) []))

/-- The process-wide state touched by `main`: the statics argc/argv
(none before main assigns them), and whether the two external calls
have been made. `SKIP_initializeSkip` and `skip_main` are external to
this translation unit and cannot name the file-local statics, so they
are embedded as steps that do not touch `capturedArgs`. -/
structure ProcState where
  capturedArgs : Option (List (List Nat))
  initialized : Bool
  entered : Bool
deriving DecidableEq

/-- Embedding of `main` as the sequence of states it passes through:
initial state, after `argc = pargc; argv = pargv`, after
`SKIP_initializeSkip()`, after `skip_main()`. -/
def bootStates (args : List (List Nat)) : List ProcState :=
  let s0 : ProcState := ⟨none, false, false⟩
  let s1 : ProcState := ⟨some args, false, false⟩
  let s2 : ProcState := ⟨some args, true, false⟩
  let s3 : ProcState := ⟨some args, true, true⟩
  [s0, s1, s2, s3]

/-! ## Output Routines

Source:
  void SKIP_print_char(uint32_t x) \x7b printf("%c", x); \x7d
  static void print(FILE* descr, char* str) \x7b
    size_t size = SKIP_String_byteSize((char*)str);
    char* buffer = (char*)malloc(size+1);
    memcpy(buffer, str, size);
    buffer[size] = 0;
    fprintf(descr, "%s", buffer);
    free(buffer);
  \x7d
  void SKIP_print_raw(char* str) \x7b print(stdout, str); \x7d
  void print_string(char* str) \x7b print(stdout, str); printf("\n"); \x7d
  void SKIP_print_error(char* str) \x7b print(stderr, str); fprintf(stderr, "\n"); \x7d

An output stream is embedded as the list of bytes written to it so
far. -/

/-- C conversion of an integer to unsigned char, as performed by the
`%c` conversion: the value reduced modulo 256. -/
def toUnsignedChar (x : Nat) : Nat :=
  x % 256

/-- Embedding of `printf("%c", x)`: converts the argument to unsigned
char and writes that single byte. -/
def printf_percent_c (out : List Nat) (x : Nat) : List Nat :=
  out ++ [toUnsignedChar x]

def SKIP_print_char (out : List Nat) (x : Nat) : List Nat :=
  printf_percent_c out x

/-- The null-terminated host buffer built inside `print`: the first
`size` bytes of the string followed by a terminating zero byte
(malloc of size+1, memcpy of size bytes, buffer[size] = 0). -/
def hostBuffer (s : RtString) : List Nat :=
  s.bytes.take (SKIP_String_byteSize s) ++ [0]

/-- Embedding of `fprintf(descr, "%s", buffer)`: writes the bytes of
the buffer up to but excluding the first zero byte. -/
def fprintf_percent_s (out buffer : List Nat) : List Nat :=
  out ++ buffer.takeWhile (fun b => b ≠ 0)

/-- Embedding of the static `print` helper: build the host buffer,
write it with %s, free it. Only the stream effect is returned here;
the allocation/release behavior is instrumented by `printEvents`. -/
def print (out : List Nat) (s : RtString) : List Nat :=
  fprintf_percent_s out (hostBuffer s)

def SKIP_print_raw (out : List Nat) (s : RtString) : List Nat :=
  print out s

/-- Embedding of `print_string`: print then `printf("\n")`. -/
def print_string (out : List Nat) (s : RtString) : List Nat :=
  print out s ++ [10]

/-- Embedding of `SKIP_print_error`: same shape as `print_string`, on
the error stream. -/
def SKIP_print_error (err : List Nat) (s : RtString) : List Nat :=
  print err s ++ [10]

/-! ## Host-buffer lifetime instrumentation

To state the release-on-every-exit-path invariant, each routine's body
is instrumented as the sequence of allocation, write and release
events it performs, in order. `fprintf` reports failure through its
return value and never transfers control, so a failed write (ok =
false) changes no subsequent event. -/

inductive HostEvent where
  | allocEv (size : Nat)
  | writeEv (bytes : List Nat) (ok : Bool)
  | freeEv (size : Nat)
deriving DecidableEq

/-- Event trace of one call to `print`: malloc(size+1), the %s write
(which may fail), free. -/
def printEvents (s : RtString) (writeOk : Bool) : List HostEvent :=
  [HostEvent.allocEv (SKIP_String_byteSize s + 1),
   HostEvent.writeEv ((hostBuffer s).takeWhile (fun b => b ≠ 0)) writeOk,
   HostEvent.freeEv (SKIP_String_byteSize s + 1)]

/-- Event trace of one call to `print_string` or `SKIP_print_error`:
the `print` events followed by the newline write (which may itself
fail). -/
def printLineEvents (s : RtString) (ok1 ok2 : Bool) : List HostEvent :=
  printEvents s ok1 ++ [HostEvent.writeEv [10] ok2]

/-- Event trace of one call to `SKIP_getArgN`: it hands argv[n+1]
directly to the compiled layer's constructor and allocates no host
buffer of its own. -/
def getArgNEvents : List HostEvent :=
  []

/-- Number of host buffers still unreleased after a trace. -/
def liveViews (events : List HostEvent) : Nat :=
  events.foldl
    (fun n e =>
      match e with
      | HostEvent.allocEv _ => n + 1
      | HostEvent.writeEv _ _ => n
      | HostEvent.freeEv _ => n - 1)
    0

/-! ## Helper lemmas -/

theorem exn_preserved {V : Type} (T : Nat) (v : V) (ops : List (ExnOp V))
    (hops : ∀ w, ExnOp.save T w ∉ ops) (s : ExnState V) (hs : s.exn T = some v) :
    (runExnOps ops s).exn T = some v := by
  induction ops generalizing s with
  | nil => exact hs
  | cons op rest ih =>
    have hrest : ∀ w, ExnOp.save T w ∉ rest := by
      intro w hw
      exact hops w (List.mem_cons_of_mem _ hw)
    have hstep : (op.apply s).exn T = some v := by
      cases op with
      | save t w =>
        have ht : t ≠ T := by
          intro hEq
          exact hops w (by simp [hEq])
        simpa [ExnOp.apply, SKIP_saveExn, Ne.symm ht] using hs
      | get t =>
        simpa [ExnOp.apply, SKIP_getExn] using hs
    simpa [runExnOps] using ih hrest (op.apply s) hstep

theorem takeWhile_of_no_zero (l : List Nat) (h : 0 ∉ l) :
    l.takeWhile (fun b => b ≠ 0) = l := by
  refine List.takeWhile_eq_self_iff.mpr ?_
  intro x hx
  have hx0 : x ≠ 0 := fun hEq => h (hEq ▸ hx)
  simp [hx0]

theorem takeWhile_append_zero (l : List Nat) :
    (l ++ [0]).takeWhile (fun b => b ≠ 0) = l.takeWhile (fun b => b ≠ 0) := by
  induction l with
  | nil => rfl
  | cons a l ih =>
    by_cases ha : a = 0
    · rw [List.cons_append, List.takeWhile_cons_of_neg (by simp [ha]),
        List.takeWhile_cons_of_neg (by simp [ha])]
    · rw [List.cons_append, List.takeWhile_cons_of_pos (by simp [ha]),
        List.takeWhile_cons_of_pos (by simp [ha]), ih]

theorem print_eq_takeWhile (out : List Nat) (s : RtString) (h : s.bytes.length < 2 ^ 32) :
    print out s = out ++ s.bytes.takeWhile (fun b => b ≠ 0) := by
  have hsize : SKIP_String_byteSize s = s.bytes.length := Nat.mod_eq_of_lt h
  rw [print, fprintf_percent_s, hostBuffer, hsize, List.take_length, takeWhile_append_zero]

/-! ## Claim theorems -/

/-- C1: after save(v) on thread T, every subsequent get() on T with no
intervening save on T returns v, and get is idempotent: it does not
change the stored state, so repeated get() calls without an intervening
save all return the same v. -/
theorem claim_C1 {V : Type} (T : Nat) (v : V) (s : ExnState V)
    (ops : List (ExnOp V)) (hops : ∀ w, ExnOp.save T w ∉ ops) :
    (SKIP_getExn T (runExnOps ops (SKIP_saveExn T v s))).1 = some v ∧
    (∀ (t : Nat) (s2 : ExnState V), (SKIP_getExn t s2).2 = s2) := by
  refine ⟨?_, fun t s2 => rfl⟩
  have hsaved : (SKIP_saveExn T v s).exn T = some v := by
    simp [SKIP_saveExn]
  exact exn_preserved T v ops hops (SKIP_saveExn T v s) hsaved

/-- Witness for C1: thread 0 saves 7, then a get on thread 0, a save on
thread 1 and a get on thread 1 happen; a get on thread 0 still returns 7. -/
theorem claim_C1_witness :
    (∀ w : Nat, ExnOp.save 0 w ∉
      ([ExnOp.get 0, ExnOp.save 1 5, ExnOp.get 1] : List (ExnOp Nat))) ∧
    (SKIP_getExn 0 (runExnOps ([ExnOp.get 0, ExnOp.save 1 5, ExnOp.get 1] : List (ExnOp Nat))
      (SKIP_saveExn 0 7 ⟨fun _ => none⟩))).1 = some 7 := by
  have hops : ∀ w : Nat, ExnOp.save 0 w ∉
      ([ExnOp.get 0, ExnOp.save 1 5, ExnOp.get 1] : List (ExnOp Nat)) := by
    intro w
    simp
  exact ⟨hops, (claim_C1 0 7 ⟨fun _ => none⟩ _ hops).1⟩

/-- C2: readLine raises the end-of-stream signal exactly when getline
reports a stream fault, which happens exactly when the input is
exhausted; in particular on empty standard input the first readLine
call raises and never returns a count. -/
theorem claim_C2 :
    (∀ s : StdinState,
      SKIP_read_line_fill s = Except.error EndOfFileSignal.endOfFile ↔
        (getlineStd s.input).2.2 = true) ∧
    (∀ s : StdinState, (getlineStd s.input).2.2 = true ↔ s.input = []) ∧
    (∀ buf : List Nat,
      SKIP_read_line_fill ⟨[], buf⟩ = Except.error EndOfFileSignal.endOfFile) ∧
    (∀ (buf : List Nat) (n : Nat) (s2 : StdinState),
      SKIP_read_line_fill ⟨[], buf⟩ ≠ Except.ok (n, s2)) := by
  have hflag : ∀ s : StdinState, (getlineStd s.input).2.2 = true ↔ s.input = [] := by
    intro s
    cases h : s.input with
    | nil => simp [getlineStd]
    | cons a l => simp [getlineStd]
  refine ⟨?_, hflag, ?_, ?_⟩
  · intro s
    cases h : s.input with
    | nil => simp [SKIP_read_line_fill, getlineStd, h]
    | cons a l => simp [SKIP_read_line_fill, getlineStd, h]
  · intro buf
    rfl
  · intro buf n s2
    simp [SKIP_read_line_fill, getlineStd]

/-- Witness for C2 at the concrete empty-input state. -/
theorem claim_C2_witness :
    SKIP_read_line_fill ⟨[], []⟩ = Except.error EndOfFileSignal.endOfFile ∧
    SKIP_read_line_fill ⟨[], []⟩ ≠ Except.ok (0, ⟨[], []⟩) :=
  ⟨claim_C2.2.2.1 [], claim_C2.2.2.2 [] 0 ⟨[], []⟩⟩

/-- C3: on input "hello\nworld\n" the first readLine returns 5 with the
buffer holding "hello" and the second returns 5 with the buffer holding
"world"; the result of readLine never depends on the previous buffer
contents (full replacement); and a successful readLine returns exactly
the byte count of the line placed in the buffer, terminator stripped. -/
theorem claim_C3 :
    (∀ b : List Nat,
      SKIP_read_line_fill ⟨[104, 101, 108, 108, 111, 10, 119, 111, 114, 108, 100, 10], b⟩
        = Except.ok (5, ⟨[119, 111, 114, 108, 100, 10], [104, 101, 108, 108, 111]⟩)) ∧
    (∀ b : List Nat,
      SKIP_read_line_fill ⟨[119, 111, 114, 108, 100, 10], b⟩
        = Except.ok (5, ⟨[], [119, 111, 114, 108, 100]⟩)) ∧
    (∀ (input b1 b2 : List Nat),
      SKIP_read_line_fill ⟨input, b1⟩ = SKIP_read_line_fill ⟨input, b2⟩) ∧
    (∀ (s : StdinState) (n : Nat) (s2 : StdinState),
      SKIP_read_line_fill s = Except.ok (n, s2) →
        n = s2.lineBuffer.length % 2 ^ 32 ∧ s2.lineBuffer = (getlineStd s.input).1) := by
  refine ⟨fun b => rfl, fun b => rfl, fun input b1 b2 => rfl, ?_⟩
  intro s n s2 h
  rw [SKIP_read_line_fill] at h
  by_cases hfail : (getlineStd s.input).2.2 = true
  · simp [hfail] at h
  · simp [hfail] at h
    obtain ⟨h1, h2⟩ := h
    subst h2
    exact ⟨h1.symm, rfl⟩

/-- Witness for C3's success conjunct at the concrete input "h\n". -/
theorem claim_C3_witness :
    SKIP_read_line_fill ⟨[104, 10], []⟩ = Except.ok (1, ⟨[], [104]⟩) ∧
    1 = ([104] : List Nat).length % 2 ^ 32 ∧
    ([104] : List Nat) = (getlineStd [104, 10]).1 := by
  have h : SKIP_read_line_fill ⟨[104, 10], []⟩ = Except.ok (1, ⟨[], [104]⟩) := by decide
  exact ⟨h, claim_C3.2.2.2 ⟨[104, 10], []⟩ 1 ⟨[], [104]⟩ h⟩

/-- C4 counterexample: after a successful readLine of the single-byte
line 0xC8 (200), byteAt(0) does not return 200: `lineBuffer[i]` has
type char, signed on the target, so the byte is sign-extended through
the uint32_t return type and byteAt(0) returns 4294967240. -/
theorem claim_C4_counterexample :
    SKIP_read_line_fill ⟨[200, 10], []⟩ = Except.ok (1, ⟨[], [200]⟩) ∧
    SKIP_read_line_get ⟨[], [200]⟩ 0 = 4294967240 ∧
    SKIP_read_line_get ⟨[], [200]⟩ 0 ≠ 200 ∧
    ¬ SKIP_read_line_get ⟨[], [200]⟩ 0 < 256 := by decide

/-- C4 amended: after a successful readLine, byteAt(i) for a valid
index i returns the i-th byte of the line when that byte is below 128;
a byte b ≥ 128 is sign-extended through the signed char type and
byteAt(i) returns 2^32 - 256 + b instead. -/
theorem claim_C4_amended (s : StdinState) (i : Nat) (b : Nat)
    (hb : s.lineBuffer.getD i 0 = b) (hrange : b < 256) :
    (b < 128 → SKIP_read_line_get s i = b) ∧
    (128 ≤ b → SKIP_read_line_get s i = 2 ^ 32 - 256 + b) := by
  rw [SKIP_read_line_get, hb]
  constructor
  · intro hlt
    simp only [hlt, if_pos]
    omega
  · intro hge
    have hnlt : ¬ b < 128 := by omega
    rw [if_neg hnlt]
    omega

/-- Witness for C4 amended: byte 65 is returned as 65, byte 200 as
2^32 - 256 + 200. -/
theorem claim_C4_amended_witness :
    SKIP_read_line_get ⟨[], [65]⟩ 0 = 65 ∧
    SKIP_read_line_get ⟨[], [200]⟩ 0 = 2 ^ 32 - 256 + 200 :=
  ⟨(claim_C4_amended ⟨[], [65]⟩ 0 65 (by decide) (by decide)).1 (by decide),
   (claim_C4_amended ⟨[], [200]⟩ 0 200 (by decide) (by decide)).2 (by decide)⟩

/-- C5: for a captured argument vector of length ≥ 1 (of zero-free host
strings), argumentCount() returns the length minus 1 and argumentAt(n)
for valid n returns the (n+1)-th entry marshalled into a runtime
string. -/
theorem claim_C5 (st : ArgState) (h1 : 1 ≤ st.argv.length)
    (h2 : st.argv.length < 2 ^ 32) (hz : ∀ a ∈ st.argv, 0 ∉ a) :
    SKIP_getArgc st = st.argv.length - 1 ∧
    (∀ n : Nat, n < st.argv.length - 1 →
      SKIP_getArgN st n = ⟨st.argv.getD (n + 1) []⟩) := by
  constructor
  · rw [SKIP_getArgc]
    omega
  · intro n hn
    have hlt : n + 1 < st.argv.length := by omega
    have hmem : st.argv.getD (n + 1) [] ∈ st.argv := by
      rw [List.getD_eq_getElem st.argv [] hlt]
      exact List.getElem_mem hlt
    have hstr : strlen (st.argv.getD (n + 1) []) = (st.argv.getD (n + 1) []).length := by
      rw [strlen, takeWhile_of_no_zero _ (hz _ hmem)]
    rw [SKIP_getArgN, hstr, sk_string_create, List.take_length]

/-- Witness for C5: the concrete scenario with argument vector
["prog", "--flag", "value"] yields argumentCount() = 2,
argumentAt(0) = "--flag" and argumentAt(1) = "value". -/
theorem claim_C5_witness :
    SKIP_getArgc ⟨[[112, 114, 111, 103], [45, 45, 102, 108, 97, 103],
      [118, 97, 108, 117, 101]]⟩ = 2 ∧
    SKIP_getArgN ⟨[[112, 114, 111, 103], [45, 45, 102, 108, 97, 103],
      [118, 97, 108, 117, 101]]⟩ 0 = ⟨[45, 45, 102, 108, 97, 103]⟩ ∧
    SKIP_getArgN ⟨[[112, 114, 111, 103], [45, 45, 102, 108, 97, 103],
      [118, 97, 108, 117, 101]]⟩ 1 = ⟨[118, 97, 108, 117, 101]⟩ := by
  have h := claim_C5 ⟨[[112, 114, 111, 103], [45, 45, 102, 108, 97, 103],
      [118, 97, 108, 117, 101]]⟩ (by decide) (by decide) (by decide)
  exact ⟨h.1, h.2 0 (by decide), h.2 1 (by decide)⟩

/-- C6 counterexample: on the runtime string "h\0i" (bytes 104, 0, 105,
byteSize 3), printRaw writes only the single byte 104, not all 3 bytes:
the %s conversion in fprintf stops at the first zero byte of the host
buffer. -/
theorem claim_C6_counterexample :
    SKIP_String_byteSize ⟨[104, 0, 105]⟩ = 3 ∧
    SKIP_print_raw [] ⟨[104, 0, 105]⟩ = [104] ∧
    SKIP_print_raw [] ⟨[104, 0, 105]⟩ ≠ [104, 0, 105] ∧
    (SKIP_print_raw [] ⟨[104, 0, 105]⟩).length ≠ 3 := by decide

/-- C6 amended: printRaw(s) writes the bytes of s preceding the first
zero byte, with no trailing newline; for a string containing no zero
byte this is exactly the byteSize(s) bytes of s verbatim. -/
theorem claim_C6_amended (out : List Nat) (s : RtString)
    (h : s.bytes.length < 2 ^ 32) :
    SKIP_print_raw out s = out ++ s.bytes.takeWhile (fun b => b ≠ 0) ∧
    (0 ∉ s.bytes →
      SKIP_print_raw out s = out ++ s.bytes ∧
      (SKIP_print_raw out s).length = out.length + SKIP_String_byteSize s) := by
  have hp : SKIP_print_raw out s = out ++ s.bytes.takeWhile (fun b => b ≠ 0) :=
    print_eq_takeWhile out s h
  refine ⟨hp, fun hz => ?_⟩
  have hall : SKIP_print_raw out s = out ++ s.bytes := by
    rw [hp, takeWhile_of_no_zero _ hz]
  refine ⟨hall, ?_⟩
  rw [hall, List.length_append, SKIP_String_byteSize, Nat.mod_eq_of_lt h]

/-- Witness for C6 amended at the zero-free string "hi". -/
theorem claim_C6_amended_witness :
    SKIP_print_raw [] ⟨[104, 105]⟩ = [] ++ [104, 105] ∧
    (SKIP_print_raw [] ⟨[104, 105]⟩).length = ([] : List Nat).length
      + SKIP_String_byteSize ⟨[104, 105]⟩ :=
  (claim_C6_amended [] ⟨[104, 105]⟩ (by decide)).2 (by decide)

/-- C7 counterexample: on the runtime string "a\0b" (bytes 97, 0, 98),
printLine writes the bytes 97, 10 — not the bytes of s followed by one
line terminator — because the %s conversion stops at the zero byte. -/
theorem claim_C7_counterexample :
    print_string [] ⟨[97, 0, 98]⟩ = [97, 10] ∧
    print_string [] ⟨[97, 0, 98]⟩ ≠ [97, 0, 98, 10] := by decide

/-- C7 amended: printLine(s) writes the bytes of s preceding the first
zero byte followed by exactly one line-terminator byte; for a string
with no zero byte this is the bytes of s followed by one terminator,
and for a string of byte-length 0 it is exactly one line-terminator
byte and nothing else. -/
theorem claim_C7_amended (out : List Nat) (s : RtString)
    (h : s.bytes.length < 2 ^ 32) :
    print_string out s = out ++ s.bytes.takeWhile (fun b => b ≠ 0) ++ [10] ∧
    (0 ∉ s.bytes → print_string out s = out ++ s.bytes ++ [10]) ∧
    (s.bytes = [] → print_string out s = out ++ [10]) := by
  have hp : print_string out s = out ++ s.bytes.takeWhile (fun b => b ≠ 0) ++ [10] := by
    rw [print_string, print_eq_takeWhile out s h]
  refine ⟨hp, fun hz => ?_, fun hnil => ?_⟩
  · rw [hp, takeWhile_of_no_zero _ hz]
  · rw [hp, hnil]
    simp
/-- Witness for C7 amended: the empty string produces exactly one
line-terminator byte. -/
theorem claim_C7_amended_witness :
    print_string [] ⟨[]⟩ = [] ++ [10] :=
  (claim_C7_amended [] ⟨[]⟩ (by decide)).2.2 (by decide)

/-- C8: every host buffer allocated by an output routine is released
before the routine returns, on every exit path, including when the
underlying write fails (every combination of write outcomes); the final
event of print is the release of the allocated buffer, and the argument
routine allocates no host buffer at all. -/
theorem claim_C8 :
    (∀ (s : RtString) (ok : Bool),
      liveViews (printEvents s ok) = 0 ∧
      (printEvents s ok).getLast? = some (HostEvent.freeEv (SKIP_String_byteSize s + 1))) ∧
    (∀ (s : RtString) (ok1 ok2 : Bool), liveViews (printLineEvents s ok1 ok2) = 0) ∧
    liveViews getArgNEvents = 0 :=
  ⟨fun s ok => ⟨rfl, rfl⟩, fun s ok1 ok2 => rfl, rfl⟩

/-- C9: main stores the argument vector into the statics before
invoking the compiled runtime's initialization, which runs before the
compiled entry point, and the captured vector is unchanged at every
point from its population on. -/
theorem claim_C9 (args : List (List Nat)) :
    (bootStates args).getD 1 ⟨none, false, false⟩ = ⟨some args, false, false⟩ ∧
    (bootStates args).getD 2 ⟨none, false, false⟩ = ⟨some args, true, false⟩ ∧
    (bootStates args).getD 3 ⟨none, false, false⟩ = ⟨some args, true, true⟩ ∧
    (∀ i : Nat, 1 ≤ i → i ≤ 3 →
      ((bootStates args).getD i ⟨none, false, false⟩).capturedArgs = some args) := by
  refine ⟨rfl, rfl, rfl, ?_⟩
  intro i h1 h3
  interval_cases i <;> rfl

/-- Witness for C9 with argument vector ["p"]: arguments are stored
before initialization and still captured at the entry-point step. -/
theorem claim_C9_witness :
    (bootStates [[112]]).getD 1 ⟨none, false, false⟩ = ⟨some [[112]], false, false⟩ ∧
    ((bootStates [[112]]).getD 3 ⟨none, false, false⟩).capturedArgs = some [[112]] :=
  ⟨(claim_C9 [[112]]).1, (claim_C9 [[112]]).2.2.2 3 (by decide) (by decide)⟩

/-- C10: printChar writes exactly one byte whose value is the argument
reduced modulo 256; in particular codepoint 955 (λ) is written as the
single byte 187, not as a multi-byte encoding. -/
theorem claim_C10 :
    (∀ (out : List Nat) (x : Nat),
      SKIP_print_char out x = out ++ [x % 256] ∧
      (SKIP_print_char out x).length = out.length + 1) ∧
    SKIP_print_char [] 955 = [187] ∧
    SKIP_print_char [] 65 = [65] := by
  refine ⟨fun out x => ⟨rfl, ?_⟩, by decide, by decide⟩
  rw [SKIP_print_char, printf_percent_c, List.length_append, List.length_singleton]

end Runtime64
